import Mathlib

/-!
Verification development for a lazily populated fork database over remote
blockchain state (files `src/provider.rs` and `src/fork_db.rs`).

The embedding models machine integers as `Nat` (addresses as 20-byte values,
U256 words, u64 counters; overflow is irrelevant to the modelled operations
except where noted), hash maps as association lists with replace-on-insert
semantics, and the asynchronous actor loop of `provider.rs` as the pure
request-processing functions it runs, with the bridge-level account cache
threaded explicitly and every contact with the remote source recorded in a
call trace.  Fallible operations return `Except`.
-/

set_option autoImplicit false

/-- Association-list lookup, modelling `HashMap::get` on the maps used by the
source (keys are `Nat`-encoded addresses, slots, hashes or block numbers). -/
def alookup {α : Type} (k : Nat) : List (Nat × α) → Option α
  | [] => none
  | (k2, v) :: rest => if k = k2 then some v else alookup k rest

/-- Association-list insert with replacement, modelling `HashMap::insert`. -/
def ainsert {α : Type} (k : Nat) (v : α) : List (Nat × α) → List (Nat × α)
  | [] => [(k, v)]
  | (k2, v2) :: rest => if k = k2 then (k, v) :: rest else (k2, v2) :: ainsert k v rest

/-! ## The request bridge (`src/provider.rs`) -/

/-- Account data held by the bridge layer (`provider.rs` `struct AccountInfo`):
balance, nonce, and raw code bytes. -/
structure AccountInfo where
  balance : Nat
  nonce : Nat
  code : List Nat
deriving DecidableEq, Repr

/-- A block as seen by the worker (`alloy` block, external collaborator):
only the header hash is consumed, and it is optional in the source
(`b.header.hash.unwrap_or_default()`). -/
structure Block where
  hash : Option Nat
deriving DecidableEq, Repr

/-- Modelled from the spec: the RemoteSource interface (section 4.3 / 6), the
opaque network-backed transport consumed by the worker in `provider.rs`
(`provider.get_balance` / `get_transaction_count` / `get_code_at` /
`get_storage_at` / `get_block`).  Each operation may fail with a transport
failure, modelled as `Except Unit`. -/
structure RemoteSource where
  get_balance : Nat → Except Unit Nat
  get_transaction_count : Nat → Except Unit Nat
  get_code_at : Nat → Except Unit (List Nat)
  get_storage_at : Nat → Nat → Except Unit Nat
  get_block : Nat → Except Unit (Option Block)

/-- Errors produced by the bridge layer (`Box<dyn Error + Send + Sync>` in the
source): a propagated transport failure, or the `"Block not found"` error
built in `get_block_hash`. -/
inductive BridgeError where
  | transport
  | blockNotFound
deriving DecidableEq, Repr

/-- One contact with the remote source, recorded in call traces so that
fetch counts are part of every operation's result. -/
inductive RemoteCall where
  | balance (address : Nat)
  | txCount (address : Nat)
  | codeAt (address : Nat)
  | storageAt (address : Nat) (slot : Nat)
  | block (number : Nat)
deriving DecidableEq, Repr

/-- The bridge-internal second-level account cache
(`db : HashMap<Address, AccountInfo>` owned by the worker in `provider.rs`). -/
abbrev BridgeDb := List (Nat × AccountInfo)

/-- Worker processing of an account request (`provider.rs` `async fn
get_account`): answer from the bridge cache if present; otherwise fetch
balance, nonce and code (in that order, stopping at the first failure),
store the assembled record in the bridge cache and return it. -/
def Worker.get_account (r : RemoteSource) (db : BridgeDb) (address : Nat) :
    Except BridgeError AccountInfo × BridgeDb × List RemoteCall :=
  match alookup address db with
  | some account => (.ok account, db, [])
  | none =>
    match r.get_balance address with
    | .error _ => (.error .transport, db, [RemoteCall.balance address])
    | .ok balance =>
      match r.get_transaction_count address with
      | .error _ => (.error .transport, db,
          [RemoteCall.balance address, RemoteCall.txCount address])
      | .ok nonce =>
        match r.get_code_at address with
        | .error _ => (.error .transport, db,
            [RemoteCall.balance address, RemoteCall.txCount address,
             RemoteCall.codeAt address])
        | .ok code =>
          let account_info : AccountInfo := { balance := balance, nonce := nonce, code := code }
          (.ok account_info, ainsert address account_info db,
            [RemoteCall.balance address, RemoteCall.txCount address,
             RemoteCall.codeAt address])

/-- Worker processing of a storage request (`provider.rs` `async fn
get_storage_at`): forwarded to the remote source unconditionally, no cache
at this layer. -/
def Worker.get_storage_at (r : RemoteSource) (address : Nat) (slot : Nat) :
    Except BridgeError Nat × List RemoteCall :=
  match r.get_storage_at address slot with
  | .ok v => (.ok v, [RemoteCall.storageAt address slot])
  | .error _ => (.error .transport, [RemoteCall.storageAt address slot])

/-- Worker processing of a block-hash request (`provider.rs` `async fn
get_block_hash`): fetch the block, fail with `"Block not found"` when the
remote reports no block, and default a missing header hash to zero. -/
def Worker.get_block_hash (r : RemoteSource) (number : Nat) :
    Except BridgeError Nat × List RemoteCall :=
  match r.get_block number with
  | .error _ => (.error .transport, [RemoteCall.block number])
  | .ok none => (.error .blockNotFound, [RemoteCall.block number])
  | .ok (some b) =>
    (.ok (match b.hash with | some h => h | none => 0), [RemoteCall.block number])

/-- Outcome of a blocking call on the `Backend` handle: either the value the
worker deposited in the reply channel, or a panic — `provider.rs` unwraps
the results of `blocking_send` and `blocking_recv`, so a closed channel
aborts the calling thread instead of yielding a value. -/
inductive SyncResult (α : Type) where
  | val (a : α)
  | panic
deriving DecidableEq, Repr

/-- Boolean test for whether a blocking call came back with any value at all
(as opposed to panicking on a closed channel). -/
def SyncResult.isVal {α : Type} : SyncResult α → Bool
  | .val _ => true
  | .panic => false

/-- Blocking account request on the bridge handle (`Backend::get_account`):
when the worker is alive the request round-trips through the channel and the
worker computes the reply; when the channels are closed, `blocking_send(..)
.unwrap()` (or `blocking_recv().unwrap()`) panics. -/
def Backend.get_account (alive : Bool) (r : RemoteSource) (db : BridgeDb) (address : Nat) :
    SyncResult (Except BridgeError AccountInfo × BridgeDb × List RemoteCall) :=
  if alive then .val (Worker.get_account r db address) else .panic

/-- Blocking storage request on the bridge handle (`Backend::get_storage_at`). -/
def Backend.get_storage_at (alive : Bool) (r : RemoteSource) (address : Nat) (slot : Nat) :
    SyncResult (Except BridgeError Nat × List RemoteCall) :=
  if alive then .val (Worker.get_storage_at r address slot) else .panic

/-- Blocking block-hash request on the bridge handle (`Backend::get_block_hash`). -/
def Backend.get_block_hash (alive : Bool) (r : RemoteSource) (number : Nat) :
    SyncResult (Except BridgeError Nat × List RemoteCall) :=
  if alive then .val (Worker.get_block_hash r number) else .panic

/-! ## The fork database (`src/fork_db.rs`) -/

/-- Modelled from the spec: the codeHash digest derived from code (section 3;
computed by the external `sha3` crate in `fork_db.rs`).  Modelled as an
injective executable encoding of the byte sequence into a 256-bit word. -/
def keccak256 (data : List Nat) : Nat :=
  (data.foldl (fun h b => h * 256 + b % 256) 1) % 2 ^ 256

/-- The sentinel digest of empty code (`revm` `KECCAK_EMPTY`), equal by
construction to the digest of the empty byte sequence. -/
def KECCAK_EMPTY : Nat := keccak256 []

/-- Account data as held by the fork database's overlay (`revm`
`AccountInfo`): balance, nonce, optional bytecode, and code hash. -/
structure RAccountInfo where
  balance : Nat
  nonce : Nat
  code : Option (List Nat)
  code_hash : Nat
deriving DecidableEq, Repr

/-- Default account data used when a storage slot is inserted for an address
whose account was never resolved (`revm` `DbAccount::default`, external). -/
def defaultRAccountInfo : RAccountInfo :=
  { balance := 0, nonce := 0, code := none, code_hash := KECCAK_EMPTY }

/-- One account entry of the overlay: its record plus its cached storage
slots (`revm` `DbAccount`). -/
structure DbAccount where
  info : RAccountInfo
  storage : List (Nat × Nat)
deriving DecidableEq, Repr

/-- The overlay owned by the fork database (`revm` `CacheDB<EmptyDB>`):
accounts with their storage, locally attached bytecode keyed by code hash,
and the independent block-hash cache. -/
structure CacheDB where
  accounts : List (Nat × DbAccount)
  contracts : List (Nat × List Nat)
  block_hashes : List (Nat × Nat)
deriving DecidableEq, Repr

/-- The empty overlay a fresh fork database starts from. -/
def emptyCacheDB : CacheDB := { accounts := [], contracts := [], block_hashes := [] }

/-- The overlay entry for an address, or a fresh default entry when the
address has none yet (`revm` `CacheDB` entry-or-default access, external). -/
def existingAccount (db : CacheDB) (address : Nat) : DbAccount :=
  match alookup address db.accounts with
  | some account => account
  | none => { info := defaultRAccountInfo, storage := [] }

/-- Modelled from the spec: storing a fetched AccountRecord in the Overlay
(sections 3 and 4.1; `revm` `CacheDB::insert_account_info`, external to this
repository).  The record is stored wholesale under its address, keeping any
storage slots already cached for that address, and its bytecode — which only
ever arrives bundled with account data — is attached to the local code store
keyed by codeHash. -/
def insertAccountInfo (db : CacheDB) (address : Nat) (info : RAccountInfo) : CacheDB :=
  let contracts := match info.code with
    | some code => ainsert info.code_hash code db.contracts
    | none => db.contracts
  { accounts :=
      ainsert address { info := info, storage := (existingAccount db address).storage }
        db.accounts,
    contracts := contracts,
    block_hashes := db.block_hashes }

/-- Modelled from the spec: recording a resolved StorageSlotEntry in the
Overlay (section 3; `revm` `CacheDB::insert_account_storage`, external to
this repository).  The slot value is stored under the owning account's
entry, creating a default entry when the account has not been resolved. -/
def insertAccountStorage (db : CacheDB) (address : Nat) (index : Nat) (value : Nat) : CacheDB :=
  { db with
    accounts := ainsert address
      ({ existingAccount db address with
         storage := ainsert index value (existingAccount db address).storage })
      db.accounts }

/-- Lookup of a cached storage slot value through the overlay's account map:
the composition of the two map lookups performed by `ForkDB::storage`. -/
def storageLookup (db : CacheDB) (address : Nat) (index : Nat) : Option Nat :=
  match alookup address db.accounts with
  | some account => alookup index account.storage
  | none => none

/-- Error type of the fork database (`Box<dyn std::error::Error>` in the
source; the only error the code constructs is the not-found condition of the
code-by-hash path). -/
inductive DbError where
  | notFound
deriving DecidableEq, Repr

/-- One invocation of the injected `EthProvider` trait object, recorded in
call traces so that provider fetch counts are part of every result. -/
inductive ProviderCall where
  | basic (address : Nat)
  | storage (address : Nat) (index : Nat)
  | blockHash (number : Nat)
deriving DecidableEq, Repr

/-- The `EthProvider` trait of `fork_db.rs`: the injected remote-source
capability consumed by `ForkDB` through shared reference, hence modelled as
pure functions. -/
structure EthProvider where
  get_basic : Nat → Option RAccountInfo
  get_storage : Nat → Nat → Nat
  get_block_hash : Nat → Nat

/-- Account query of the fork database (`ForkDB::basic`): answer from the
overlay when the address has an entry; otherwise ask the provider, store the
record only when one was actually found, and return the provider's answer.
The source always returns `Ok`. -/
def ForkDB.basic (p : EthProvider) (db : CacheDB) (address : Nat) :
    Except DbError (Option RAccountInfo) × CacheDB × List ProviderCall :=
  match alookup address db.accounts with
  | some account => (.ok (some account.info), db, [])
  | none =>
    match p.get_basic address with
    | some info => (.ok (some info), insertAccountInfo db address info, [ProviderCall.basic address])
    | none => (.ok none, db, [ProviderCall.basic address])

/-- The fetch-and-store arm of `ForkDB::storage`: ask the provider, cache the
value (including a zero default) and return it. -/
def ForkDB.storageFetch (p : EthProvider) (db : CacheDB) (address : Nat) (index : Nat) :
    Except DbError Nat × CacheDB × List ProviderCall :=
  let storage_val := p.get_storage address index
  (.ok storage_val, insertAccountStorage db address index storage_val,
    [ProviderCall.storage address index])

/-- Storage query of the fork database (`ForkDB::storage`): answer from the
overlay when the slot was previously resolved, otherwise fetch and cache. -/
def ForkDB.storage (p : EthProvider) (db : CacheDB) (address : Nat) (index : Nat) :
    Except DbError Nat × CacheDB × List ProviderCall :=
  match alookup address db.accounts with
  | some account =>
    match alookup index account.storage with
    | some entry => (.ok entry, db, [])
    | none => ForkDB.storageFetch p db address index
  | none => ForkDB.storageFetch p db address index

/-- Block-hash query of the fork database (`ForkDB::block_hash`): the u64
block number is widened to the overlay's 256-bit key, answered from the
block-hash cache when present, otherwise fetched and cached.  No range guard
exists on this path. -/
def ForkDB.block_hash (p : EthProvider) (db : CacheDB) (number : Nat) :
    Except DbError Nat × CacheDB × List ProviderCall :=
  match alookup number db.block_hashes with
  | some h => (.ok h, db, [])
  | none =>
    let block_hash := p.get_block_hash number
    (.ok block_hash, { db with block_hashes := ainsert number block_hash db.block_hashes },
      [ProviderCall.blockHash number])

/-- Largest value of the u64 block-number parameter (`u64::MAX`). -/
def u64MAX : Nat := 2 ^ 64 - 1

/-- Read-only block-hash query (`ForkDB::block_hash_ref`): the source guards
`if number > u64::MAX` before contacting the provider, returning the empty
digest sentinel — but the parameter is itself a u64, so the comparison is
between a u64 value and u64::MAX, here a `Nat` bounded by `u64MAX` compared
against `u64MAX`. -/
def ForkDB.block_hash_ref (p : EthProvider) (number : Nat) :
    Except DbError Nat × List ProviderCall :=
  if number > u64MAX then (.ok KECCAK_EMPTY, [])
  else (.ok (p.get_block_hash number), [ProviderCall.blockHash number])

/-- Code-by-hash query (`ForkDB::code_by_hash`): delegate to the overlay's
local code store — modelled from the spec: bytecode by content hash is only
ever served from what account fetches attached locally (`revm`
`CacheDB::code_by_hash`, external) — and surface a miss as the not-found
error.  The provider is never contacted, hence the empty call trace. -/
def ForkDB.code_by_hash (db : CacheDB) (code_hash : Nat) :
    Except DbError (List Nat) × List ProviderCall :=
  match alookup code_hash db.contracts with
  | some code => (.ok code, [])
  | none => (.error DbError.notFound, [])

/-- Read-only code-by-hash query (`ForkDB::code_by_hash_ref`): always fails
with the not-found error, ignoring the overlay entirely. -/
def ForkDB.code_by_hash_ref (_db : CacheDB) (_code_hash : Nat) :
    Except DbError (List Nat) × List ProviderCall :=
  (.error DbError.notFound, [])

/-- Modelled from the spec: `commit(changes)` (sections 4.1 and 6) replaces
or inserts Overlay entries for every address present in the change set and
touches nothing else (`revm` `CacheDB::commit` via `DatabaseCommit for
ForkDB`, external to this repository).  The change set maps addresses to
post-execution account records, applied in order. -/
def ForkDB.commit (db : CacheDB) (changes : List (Nat × RAccountInfo)) : CacheDB :=
  changes.foldl (fun d c => insertAccountInfo d c.1 c.2) db

/-! ## The provider adapter over the bridge (`impl EthProvider for Backend`) -/

/-- Conversion of a bridge account record into an overlay record
(`fork_db.rs`, body of `Backend::get_basic`): the code hash is recomputed
from the code bytes and the code is attached. -/
def toRAccountInfo (acc : AccountInfo) : RAccountInfo :=
  { balance := acc.balance, nonce := acc.nonce,
    code := some acc.code, code_hash := keccak256 acc.code }

/-- The account side of `impl EthProvider for Backend` (`fork_db.rs`
`get_basic`): the bridge result is discarded into an `Option` via `.ok()`,
so a bridge failure becomes `None`; a fetched record is converted with
`toRAccountInfo`.  The worker runs with open channels; the bridge cache is
threaded through. -/
def backendGetBasic (r : RemoteSource) (bdb : BridgeDb) (address : Nat) :
    Option RAccountInfo × BridgeDb × List RemoteCall :=
  match Worker.get_account r bdb address with
  | (.ok acc, bdb2, calls) => (some (toRAccountInfo acc), bdb2, calls)
  | (.error _, bdb2, calls) => (none, bdb2, calls)

/-- The storage side of `impl EthProvider for Backend` (`fork_db.rs`
`get_storage`): `unwrap_or_default()` turns a bridge failure into zero. -/
def backendGetStorage (r : RemoteSource) (address : Nat) (index : Nat) :
    Nat × List RemoteCall :=
  match Worker.get_storage_at r address index with
  | (.ok v, calls) => (v, calls)
  | (.error _, calls) => (0, calls)

/-- The block-hash side of `impl EthProvider for Backend` (`fork_db.rs`
`get_block_hash`): `unwrap_or_default()` turns a bridge failure into the
zero hash. -/
def backendGetBlockHash (r : RemoteSource) (number : Nat) :
    Nat × List RemoteCall :=
  match Worker.get_block_hash r number with
  | (.ok h, calls) => (h, calls)
  | (.error _, calls) => (0, calls)

/-- `ForkDB::basic` with its provider instantiated to the bridge-backed
`EthProvider` (`fork_db.rs` `basic` composed with `Backend::get_basic`),
threading the bridge cache and recording every remote contact. -/
def pipelineBasic (r : RemoteSource) (bdb : BridgeDb) (db : CacheDB) (address : Nat) :
    Except DbError (Option RAccountInfo) × CacheDB × BridgeDb × List RemoteCall :=
  match alookup address db.accounts with
  | some account => (.ok (some account.info), db, bdb, [])
  | none =>
    match backendGetBasic r bdb address with
    | (some info, bdb2, calls) =>
        (.ok (some info), insertAccountInfo db address info, bdb2, calls)
    | (none, bdb2, calls) => (.ok none, db, bdb2, calls)

/-- The fetch-and-store arm of `ForkDB::storage` over the bridge-backed
provider. -/
def pipelineStorageFetch (r : RemoteSource) (db : CacheDB) (address : Nat) (index : Nat) :
    Except DbError Nat × CacheDB × List RemoteCall :=
  let fetched := backendGetStorage r address index
  (.ok fetched.1, insertAccountStorage db address index fetched.1, fetched.2)

/-- `ForkDB::storage` with its provider instantiated to the bridge-backed
`EthProvider` (`fork_db.rs` `storage` composed with `Backend::get_storage`). -/
def pipelineStorage (r : RemoteSource) (db : CacheDB) (address : Nat) (index : Nat) :
    Except DbError Nat × CacheDB × List RemoteCall :=
  match alookup address db.accounts with
  | some account =>
    match alookup index account.storage with
    | some entry => (.ok entry, db, [])
    | none => pipelineStorageFetch r db address index
  | none => pipelineStorageFetch r db address index

/-! ## Concrete fixtures for witnesses and counterexamples -/

/-- A remote source on which every fetch fails with a transport failure. -/
def failRemote : RemoteSource :=
  { get_balance := fun _ => .error (),
    get_transaction_count := fun _ => .error (),
    get_code_at := fun _ => .error (),
    get_storage_at := fun _ _ => .error (),
    get_block := fun _ => .error () }

/-- A remote source on which every fetch succeeds with small fixed data. -/
def okRemote : RemoteSource :=
  { get_balance := fun _ => .ok 1000,
    get_transaction_count := fun _ => .ok 2,
    get_code_at := fun _ => .ok [],
    get_storage_at := fun _ _ => .ok 0,
    get_block := fun _ => .ok (some { hash := some 9 }) }

/-- The predicate of claim C1's hypothesis: every operation of the remote
source fails with a transport failure, at every input. -/
def remoteAlwaysFails (r : RemoteSource) : Prop :=
  (∀ a, r.get_balance a = .error ()) ∧
  (∀ a, r.get_transaction_count a = .error ()) ∧
  (∀ a, r.get_code_at a = .error ()) ∧
  (∀ a k, r.get_storage_at a k = .error ()) ∧
  (∀ n, r.get_block n = .error ())

/-- A sample account record used in witnesses. -/
def rec0 : RAccountInfo :=
  { balance := 1000, nonce := 2, code := some [], code_hash := KECCAK_EMPTY }

/-- A second, different sample account record used in witnesses. -/
def rec1 : RAccountInfo :=
  { balance := 500, nonce := 3, code := some [], code_hash := KECCAK_EMPTY }

/-- A provider stub that reports `rec0` for every account, zero storage, and
block hash 5. -/
def stubAccountProvider : EthProvider :=
  { get_basic := fun _ => some rec0,
    get_storage := fun _ _ => 0,
    get_block_hash := fun _ => 5 }

/-- A provider stub that reports every account absent, zero storage, and
block hash 7. -/
def absentProvider : EthProvider :=
  { get_basic := fun _ => none,
    get_storage := fun _ _ => 0,
    get_block_hash := fun _ => 7 }

/-! ## Helper lemmas about the association-list maps and the overlay -/

theorem alookup_ainsert_self {α : Type} (k : Nat) (v : α) (l : List (Nat × α)) :
    alookup k (ainsert k v l) = some v := by
  induction l with
  | nil => simp [ainsert, alookup]
  | cons hd tl ih =>
    rcases hd with ⟨k2, v2⟩
    by_cases h : k = k2
    · simp [ainsert, alookup, h]
    · simp [ainsert, alookup, h, ih]

theorem alookup_ainsert_of_ne {α : Type} (k k2 : Nat) (v : α) (l : List (Nat × α))
    (h : k ≠ k2) : alookup k (ainsert k2 v l) = alookup k l := by
  induction l with
  | nil => simp [ainsert, alookup, h]
  | cons hd tl ih =>
    rcases hd with ⟨k3, v3⟩
    by_cases h2 : k2 = k3
    · subst h2
      simp [ainsert, alookup, h]
    · simp [ainsert, alookup, h2, ih]

theorem insertAccountInfo_block_hashes (db : CacheDB) (a : Nat) (i : RAccountInfo) :
    (insertAccountInfo db a i).block_hashes = db.block_hashes := rfl

theorem alookup_insertAccountInfo_self (db : CacheDB) (a : Nat) (i : RAccountInfo) :
    alookup a (insertAccountInfo db a i).accounts
      = some { info := i, storage := (existingAccount db a).storage } := by
  simp [insertAccountInfo, alookup_ainsert_self]

theorem alookup_insertAccountInfo_of_ne (db : CacheDB) (a a2 : Nat) (i : RAccountInfo)
    (h : a ≠ a2) :
    alookup a (insertAccountInfo db a2 i).accounts = alookup a db.accounts := by
  simp [insertAccountInfo, alookup_ainsert_of_ne, h]

theorem storageLookup_insertAccountStorage_self (db : CacheDB) (a k v : Nat) :
    storageLookup (insertAccountStorage db a k v) a k = some v := by
  simp [storageLookup, insertAccountStorage, alookup_ainsert_self]

theorem storageLookup_insertAccountInfo (db : CacheDB) (a0 : Nat) (i : RAccountInfo)
    (a k : Nat) :
    storageLookup (insertAccountInfo db a0 i) a k = storageLookup db a k := by
  by_cases h : a = a0
  · subst h
    cases h2 : alookup a db.accounts with
    | some acct =>
      simp [storageLookup, alookup_insertAccountInfo_self, existingAccount, h2]
    | none =>
      simp [storageLookup, alookup_insertAccountInfo_self, existingAccount, h2, alookup]
  · simp [storageLookup, alookup_insertAccountInfo_of_ne db a a0 i h]

theorem commit_nil (db : CacheDB) : ForkDB.commit db [] = db := rfl

theorem commit_cons (db : CacheDB) (c : Nat × RAccountInfo) (tl : List (Nat × RAccountInfo)) :
    ForkDB.commit db (c :: tl) = ForkDB.commit (insertAccountInfo db c.1 c.2) tl := rfl

theorem commit_block_hashes (ch : List (Nat × RAccountInfo)) :
    ∀ db : CacheDB, (ForkDB.commit db ch).block_hashes = db.block_hashes := by
  induction ch with
  | nil => intro db; rfl
  | cons c tl ih =>
    intro db
    rw [commit_cons, ih, insertAccountInfo_block_hashes]

theorem commit_storageLookup (ch : List (Nat × RAccountInfo)) :
    ∀ (db : CacheDB) (a k : Nat),
      storageLookup (ForkDB.commit db ch) a k = storageLookup db a k := by
  induction ch with
  | nil => intro db a k; rfl
  | cons c tl ih =>
    intro db a k
    rw [commit_cons, ih, storageLookup_insertAccountInfo]

theorem commit_accounts_unmentioned (ch : List (Nat × RAccountInfo)) :
    ∀ (db : CacheDB) (a : Nat), a ∉ ch.map Prod.fst →
      alookup a (ForkDB.commit db ch).accounts = alookup a db.accounts := by
  induction ch with
  | nil => intro db a _; rfl
  | cons c tl ih =>
    intro db a h
    simp only [List.map_cons, List.mem_cons] at h
    push_neg at h
    rw [commit_cons, ih _ _ h.2, alookup_insertAccountInfo_of_ne db a c.1 c.2 h.1]

theorem commit_accounts_mentioned (ch : List (Nat × RAccountInfo)) :
    ∀ (db : CacheDB) (b : Nat), b ∈ ch.map Prod.fst →
      (alookup b (ForkDB.commit db ch).accounts).isSome = true := by
  induction ch with
  | nil => intro db b h; simp at h
  | cons c tl ih =>
    intro db b h
    rw [commit_cons]
    by_cases hb : b ∈ tl.map Prod.fst
    · exact ih _ _ hb
    · have hbc : b = c.1 := by
        simp only [List.map_cons, List.mem_cons] at h
        tauto
      rw [commit_accounts_unmentioned tl _ _ hb]
      subst hbc
      simp [alookup_insertAccountInfo_self]

theorem basic_hit (p : EthProvider) (db : CacheDB) (a : Nat) (acct : DbAccount)
    (h : alookup a db.accounts = some acct) :
    ForkDB.basic p db a = (.ok (some acct.info), db, []) := by
  simp [ForkDB.basic, h]

theorem basic_after_insert (p : EthProvider) (db : CacheDB) (a : Nat) (i : RAccountInfo) :
    ForkDB.basic p (insertAccountInfo db a i) a
      = (.ok (some i), insertAccountInfo db a i, []) := by
  simp [ForkDB.basic, alookup_insertAccountInfo_self]

/-! ## Supporting lemmas for the claims -/

theorem pipelineStorage_hit (r : RemoteSource) (db : CacheDB) (a k v : Nat)
    (h : storageLookup db a k = some v) :
    pipelineStorage r db a k = (.ok v, db, []) := by
  cases h1 : alookup a db.accounts with
  | none => simp [storageLookup, h1] at h
  | some acct =>
    simp only [storageLookup, h1] at h
    simp [pipelineStorage, h1, h]

theorem block_hash_ref_always_fetches (p : EthProvider) (n : Nat) (h : n ≤ u64MAX) :
    ForkDB.block_hash_ref p n
      = (.ok (p.get_block_hash n), [ProviderCall.blockHash n]) := by
  simp [ForkDB.block_hash_ref, Nat.not_lt.2 h]

/-! ## The claims -/

/-- Claim C1, as stated, is false on the code: with a remote source on which
every fetch fails with a transport failure, `ForkDB::basic` on an uncached
address returns `Ok(None)` — a success reporting an absent account — not a
typed transport error, because `impl EthProvider for Backend::get_basic`
discards the bridge's error with `.ok()`.  Concretely, on empty caches and
address 0 the full pipeline yields the success value `Ok(None)` after one
remote balance probe. -/
theorem basic_transport_failure_not_an_error_cex :
    pipelineBasic failRemote [] emptyCacheDB 0
      = (.ok none, emptyCacheDB, [], [RemoteCall.balance 0]) := rfl

/-- Claim C1 (amended): with a remote source on which every fetch fails with
a transport failure, the failure is propagated as a typed error through the
bridge layer — the worker answers `Err(transport)` without touching its
cache, and `Backend::get_account` returns exactly that error — but the
`EthProvider` adapter converts it into `None` via `.ok()`, so `ForkDB::basic`
on an uncached address returns the success value `Ok(None)` (an absent
account) to the consumer instead of the error. -/
theorem basic_transport_failure_becomes_absent (r : RemoteSource) (bdb : BridgeDb)
    (db : CacheDB) (a : Nat)
    (hfail : remoteAlwaysFails r)
    (hb : alookup a bdb = none)
    (hc : alookup a db.accounts = none) :
    Worker.get_account r bdb a = (.error .transport, bdb, [RemoteCall.balance a])
  ∧ Backend.get_account true r bdb a
      = .val (.error .transport, bdb, [RemoteCall.balance a])
  ∧ pipelineBasic r bdb db a = (.ok none, db, bdb, [RemoteCall.balance a]) := by
  obtain ⟨h1, h2, h3, h4, h5⟩ := hfail
  have hw : Worker.get_account r bdb a
      = (.error .transport, bdb, [RemoteCall.balance a]) := by
    simp [Worker.get_account, hb, h1 a]
  refine ⟨hw, ?_, ?_⟩
  · simp [Backend.get_account, hw]
  · simp [pipelineBasic, hc, backendGetBasic, hw]

/-- Witness for the amended claim C1, at the always-failing remote source,
empty caches and address 0. -/
theorem basic_transport_failure_becomes_absent_witness :
    Worker.get_account failRemote [] 0
      = (.error .transport, [], [RemoteCall.balance 0])
  ∧ Backend.get_account true failRemote [] 0
      = .val (.error .transport, [], [RemoteCall.balance 0])
  ∧ pipelineBasic failRemote [] emptyCacheDB 0
      = (.ok none, emptyCacheDB, [], [RemoteCall.balance 0]) :=
  basic_transport_failure_becomes_absent failRemote [] emptyCacheDB 0
    ⟨fun _ => rfl, fun _ => rfl, fun _ => rfl, fun _ _ => rfl, fun _ => rfl⟩ rfl rfl

/-- Claim C2, as stated, is false on the code: when the bridge worker has
terminated (channels closed), the blocking calls do not return a typed
backend-unavailable failure — `blocking_send(..).unwrap()` panics, aborting
the calling thread, so no value of any kind is returned.  Concretely, with
closed channels each of the three calls evaluates to the panic outcome, and
in particular the account call does not come back with a value. -/
theorem bridge_calls_panic_when_closed_cex :
    Backend.get_account false failRemote [] 0 = SyncResult.panic
  ∧ (Backend.get_account false failRemote [] 0).isVal = false
  ∧ Backend.get_storage_at false failRemote 0 0 = SyncResult.panic
  ∧ Backend.get_block_hash false failRemote 0 = SyncResult.panic :=
  ⟨rfl, rfl, rfl, rfl⟩

/-- Claim C2 (amended): for every request submitted after the bridge worker
has terminated, the blocking calls `requestAccount`, `requestStorage` and
`requestBlockHash` terminate deterministically with a panic of the calling
thread (the `unwrap` on the closed channel) — they never hang, but they also
never return a typed backend-unavailable error. -/
theorem bridge_calls_panic_when_closed (r : RemoteSource) (db : BridgeDb)
    (a slot n : Nat) :
    Backend.get_account false r db a = SyncResult.panic
  ∧ Backend.get_storage_at false r a slot = SyncResult.panic
  ∧ Backend.get_block_hash false r n = SyncResult.panic :=
  ⟨rfl, rfl, rfl⟩

/-- Claim C3: the code is wrong and the claim describes the evident intent.
The guard in `ForkDB::block_hash_ref` reads `if number > u64::MAX`, but
`number` is itself a u64, so the comparison is always false and the sentinel
branch is dead code: at the largest representable block number the provider
IS contacted and its hash (here 7) is returned instead of the empty-digest
sentinel; the mutable `ForkDB::block_hash` path has no guard at all and also
contacts the provider and caches its answer. -/
theorem block_hash_ref_overflow_guard_dead :
    ForkDB.block_hash_ref absentProvider u64MAX
      = (.ok 7, [ProviderCall.blockHash u64MAX])
  ∧ ForkDB.block_hash absentProvider emptyCacheDB u64MAX
      = (.ok 7, { accounts := [], contracts := [], block_hashes := [(u64MAX, 7)] },
         [ProviderCall.blockHash u64MAX])
  ∧ KECCAK_EMPTY = 1 :=
  ⟨rfl, rfl, by decide⟩

/-- Claim C4: once `ForkDB::basic` has returned a present record for an
address, every subsequent call for the same address on the resulting state
returns the identical record straight from the overlay, with no provider
invocation (empty call trace) and no state change. -/
theorem basic_cached_after_first_return (p : EthProvider) (db : CacheDB) (a : Nat)
    (r : RAccountInfo) (db2 : CacheDB) (calls : List ProviderCall)
    (h : ForkDB.basic p db a = (.ok (some r), db2, calls)) :
    ForkDB.basic p db2 a = (.ok (some r), db2, []) := by
  cases h1 : alookup a db.accounts with
  | some acct =>
    simp only [ForkDB.basic, h1, Prod.mk.injEq, Except.ok.injEq, Option.some.injEq] at h
    obtain ⟨hr, hdb, _⟩ := h
    subst hr
    subst hdb
    exact basic_hit p db a acct h1
  | none =>
    cases h2 : p.get_basic a with
    | none => simp [ForkDB.basic, h1, h2] at h
    | some i =>
      simp only [ForkDB.basic, h1, h2, Prod.mk.injEq, Except.ok.injEq,
        Option.some.injEq] at h
      obtain ⟨hr, hdb, _⟩ := h
      subst hr
      subst hdb
      exact basic_after_insert p db a i

/-- Witness for claim C4, at a provider stub that reports `rec0` for every
address, starting from the empty overlay and address 0. -/
theorem basic_cached_after_first_return_witness :
    ForkDB.basic stubAccountProvider (insertAccountInfo emptyCacheDB 0 rec0) 0
      = (.ok (some rec0), insertAccountInfo emptyCacheDB 0 rec0, []) :=
  basic_cached_after_first_return stubAccountProvider emptyCacheDB 0 rec0
    (insertAccountInfo emptyCacheDB 0 rec0) [ProviderCall.basic 0] rfl

/-- Claim C5: when the remote source reports no stored value (the zero word)
for an unresolved pair, `ForkDB::storage` over the bridge-backed provider
returns zero after exactly one remote fetch, caches that zero in the
overlay, and a repeated query is answered from the overlay with no further
remote contact — the remote fetch count for the pair stays at one. -/
theorem storage_zero_default_cached (r : RemoteSource) (db : CacheDB) (a k : Nat)
    (hval : r.get_storage_at a k = .ok 0)
    (hmiss : storageLookup db a k = none) :
    pipelineStorage r db a k
      = (.ok 0, insertAccountStorage db a k 0, [RemoteCall.storageAt a k])
  ∧ pipelineStorage r (insertAccountStorage db a k 0) a k
      = (.ok 0, insertAccountStorage db a k 0, []) := by
  have hfetch : pipelineStorageFetch r db a k
      = (.ok 0, insertAccountStorage db a k 0, [RemoteCall.storageAt a k]) := by
    simp [pipelineStorageFetch, backendGetStorage, Worker.get_storage_at, hval]
  constructor
  · cases h1 : alookup a db.accounts with
    | none => simp [pipelineStorage, h1, hfetch]
    | some acct =>
      have h2 : alookup k acct.storage = none := by
        simpa [storageLookup, h1] using hmiss
      simp [pipelineStorage, h1, h2, hfetch]
  · exact pipelineStorage_hit r (insertAccountStorage db a k 0) a k 0
      (storageLookup_insertAccountStorage_self db a k 0)

/-- Witness for claim C5, at a remote source reporting the zero word for
every slot, the empty overlay, address 3 and slot 4. -/
theorem storage_zero_default_cached_witness :
    pipelineStorage okRemote emptyCacheDB 3 4
      = (.ok 0, insertAccountStorage emptyCacheDB 3 4 0, [RemoteCall.storageAt 3 4])
  ∧ pipelineStorage okRemote (insertAccountStorage emptyCacheDB 3 4 0) 3 4
      = (.ok 0, insertAccountStorage emptyCacheDB 3 4 0, []) :=
  storage_zero_default_cached okRemote emptyCacheDB 3 4 rfl rfl

/-- Claim C6: when the provider reports an address absent, `ForkDB::basic`
returns no record, leaves the overlay exactly as it was (no negative cache
entry), and the provider was queried; because the state is unchanged, an
immediately repeated call takes the same path and queries the provider
again. -/
theorem basic_absent_not_cached (p : EthProvider) (db : CacheDB) (a : Nat)
    (habs : p.get_basic a = none)
    (hmiss : alookup a db.accounts = none) :
    ForkDB.basic p db a = (.ok none, db, [ProviderCall.basic a])
  ∧ ForkDB.basic p (ForkDB.basic p db a).2.1 a
      = (.ok none, db, [ProviderCall.basic a]) := by
  have h : ForkDB.basic p db a = (.ok none, db, [ProviderCall.basic a]) := by
    simp [ForkDB.basic, hmiss, habs]
  refine ⟨h, ?_⟩
  rw [h]
  exact h

/-- Witness for claim C6, at a provider stub that reports every address
absent, the empty overlay and address 0. -/
theorem basic_absent_not_cached_witness :
    ForkDB.basic absentProvider emptyCacheDB 0
      = (.ok none, emptyCacheDB, [ProviderCall.basic 0])
  ∧ ForkDB.basic absentProvider (ForkDB.basic absentProvider emptyCacheDB 0).2.1 0
      = (.ok none, emptyCacheDB, [ProviderCall.basic 0]) :=
  basic_absent_not_cached absentProvider emptyCacheDB 0 rfl rfl

/-- Claim C7: after committing a change set binding address `a` to record
`r`, `ForkDB::basic` on `a` returns exactly `r` from the overlay — whatever
record `a` had before — with no provider invocation and no state change. -/
theorem commit_overwrite_then_basic (p : EthProvider) (db : CacheDB) (a : Nat)
    (r : RAccountInfo) :
    ForkDB.basic p (ForkDB.commit db [(a, r)]) a
      = (.ok (some r), ForkDB.commit db [(a, r)], []) := by
  show ForkDB.basic p (insertAccountInfo db a r) a
      = (.ok (some r), insertAccountInfo db a r, [])
  exact basic_after_insert p db a r

/-- Claim C8: commit replaces or inserts overlay account entries for exactly
the addresses of the change set: the block-hash cache is identical before and
after, the account entry of any unmentioned address is identical, per-slot
storage reads are identical for every address (mentioned or not, since the
change set carries only account records), and every mentioned address has an
account entry afterwards. -/
theorem commit_frame_property (db : CacheDB) (ch : List (Nat × RAccountInfo))
    (a b k : Nat)
    (ha : a ∉ ch.map Prod.fst)
    (hb : b ∈ ch.map Prod.fst) :
    (ForkDB.commit db ch).block_hashes = db.block_hashes
  ∧ alookup a (ForkDB.commit db ch).accounts = alookup a db.accounts
  ∧ storageLookup (ForkDB.commit db ch) a k = storageLookup db a k
  ∧ storageLookup (ForkDB.commit db ch) b k = storageLookup db b k
  ∧ (alookup b (ForkDB.commit db ch).accounts).isSome = true :=
  ⟨commit_block_hashes ch db, commit_accounts_unmentioned ch db a ha,
   commit_storageLookup ch db a k, commit_storageLookup ch db b k,
   commit_accounts_mentioned ch db b hb⟩

/-- Witness for claim C8: committing `[(1, rec1)]` over an overlay already
holding `rec0` at address 1, observed at the unmentioned address 2, the
mentioned address 1 and slot 0. -/
theorem commit_frame_property_witness :
    (ForkDB.commit (insertAccountInfo emptyCacheDB 1 rec0) [(1, rec1)]).block_hashes
      = (insertAccountInfo emptyCacheDB 1 rec0).block_hashes
  ∧ alookup 2 (ForkDB.commit (insertAccountInfo emptyCacheDB 1 rec0) [(1, rec1)]).accounts
      = alookup 2 (insertAccountInfo emptyCacheDB 1 rec0).accounts
  ∧ storageLookup (ForkDB.commit (insertAccountInfo emptyCacheDB 1 rec0) [(1, rec1)]) 2 0
      = storageLookup (insertAccountInfo emptyCacheDB 1 rec0) 2 0
  ∧ storageLookup (ForkDB.commit (insertAccountInfo emptyCacheDB 1 rec0) [(1, rec1)]) 1 0
      = storageLookup (insertAccountInfo emptyCacheDB 1 rec0) 1 0
  ∧ (alookup 1 (ForkDB.commit (insertAccountInfo emptyCacheDB 1 rec0) [(1, rec1)]).accounts).isSome
      = true :=
  commit_frame_property (insertAccountInfo emptyCacheDB 1 rec0) [(1, rec1)] 2 1 0
    (by decide) (by decide)

/-- Claim C9: a code-by-hash query whose bytecode is not locally cached fails
with the not-found error on both the mutable path (`code_by_hash`, which
consults the local code store only) and the read-only path
(`code_by_hash_ref`, which fails unconditionally), and neither contacts the
provider (empty call traces); moreover neither the storage nor the
block-hash operation ever touches the local code store, so bytecode is only
attached through account fetches. -/
theorem code_by_hash_not_found_no_fetch (db : CacheDB) (ch : Nat)
    (p : EthProvider) (a k n : Nat)
    (hmiss : alookup ch db.contracts = none) :
    ForkDB.code_by_hash db ch = (.error DbError.notFound, [])
  ∧ ForkDB.code_by_hash_ref db ch = (.error DbError.notFound, [])
  ∧ (ForkDB.storage p db a k).2.1.contracts = db.contracts
  ∧ (ForkDB.block_hash p db n).2.1.contracts = db.contracts := by
  refine ⟨?_, rfl, ?_, ?_⟩
  · simp [ForkDB.code_by_hash, hmiss]
  · cases h1 : alookup a db.accounts with
    | none => simp [ForkDB.storage, h1, ForkDB.storageFetch, insertAccountStorage]
    | some acct =>
      cases h2 : alookup k acct.storage with
      | none => simp [ForkDB.storage, h1, h2, ForkDB.storageFetch, insertAccountStorage]
      | some v => simp [ForkDB.storage, h1, h2]
  · cases h1 : alookup n db.block_hashes with
    | none => simp [ForkDB.block_hash, h1]
    | some v => simp [ForkDB.block_hash, h1]

/-- Witness for claim C9, on the empty overlay, code hash 5, and observation
points address 0, slot 1, block 2 with the absent-account provider stub. -/
theorem code_by_hash_not_found_no_fetch_witness :
    ForkDB.code_by_hash emptyCacheDB 5 = (.error DbError.notFound, [])
  ∧ ForkDB.code_by_hash_ref emptyCacheDB 5 = (.error DbError.notFound, [])
  ∧ (ForkDB.storage absentProvider emptyCacheDB 0 1).2.1.contracts
      = emptyCacheDB.contracts
  ∧ (ForkDB.block_hash absentProvider emptyCacheDB 2).2.1.contracts
      = emptyCacheDB.contracts :=
  code_by_hash_not_found_no_fetch emptyCacheDB 5 absentProvider 0 1 2 rfl

/-- Claim C10: in the bridge worker, once an account request has succeeded
the record is in the worker's cache, so a repeat account request is answered
from that cache with no remote contact; storage and block-hash requests, by
contrast, always carry exactly one remote contact in their trace regardless
of history, because the worker caches nothing for them. -/
theorem bridge_account_cache_and_uncached_storage (r : RemoteSource)
    (db : BridgeDb) (a : Nat) (acc : AccountInfo) (db2 : BridgeDb)
    (calls : List RemoteCall) (a2 k n : Nat)
    (h : Worker.get_account r db a = (.ok acc, db2, calls)) :
    Worker.get_account r db2 a = (.ok acc, db2, [])
  ∧ (Worker.get_storage_at r a2 k).2 = [RemoteCall.storageAt a2 k]
  ∧ (Worker.get_block_hash r n).2 = [RemoteCall.block n] := by
  refine ⟨?_, ?_, ?_⟩
  · cases h1 : alookup a db with
    | some account =>
      simp only [Worker.get_account, h1, Prod.mk.injEq, Except.ok.injEq] at h
      obtain ⟨hacc, hdb, _⟩ := h
      subst hacc
      subst hdb
      simp [Worker.get_account, h1]
    | none =>
      cases h2 : r.get_balance a with
      | error e => simp [Worker.get_account, h1, h2] at h
      | ok balance =>
        cases h3 : r.get_transaction_count a with
        | error e => simp [Worker.get_account, h1, h2, h3] at h
        | ok nonce =>
          cases h4 : r.get_code_at a with
          | error e => simp [Worker.get_account, h1, h2, h3, h4] at h
          | ok code =>
            simp only [Worker.get_account, h1, h2, h3, h4, Prod.mk.injEq,
              Except.ok.injEq] at h
            obtain ⟨hacc, hdb, _⟩ := h
            subst hacc
            subst hdb
            simp [Worker.get_account, alookup_ainsert_self]
  · cases h2 : r.get_storage_at a2 k with
    | ok v => simp [Worker.get_storage_at, h2]
    | error e => simp [Worker.get_storage_at, h2]
  · cases h2 : r.get_block n with
    | error e => simp [Worker.get_block_hash, h2]
    | ok ob =>
      cases ob with
      | none => simp [Worker.get_block_hash, h2]
      | some b => simp [Worker.get_block_hash, h2]

/-- Witness for claim C10, at the all-succeeding remote source, the empty
bridge cache and address 0, observed at storage pair (3,4) and block 6. -/
theorem bridge_account_cache_and_uncached_storage_witness :
    Worker.get_account okRemote [(0, { balance := 1000, nonce := 2, code := [] })] 0
      = (.ok { balance := 1000, nonce := 2, code := [] },
         [(0, { balance := 1000, nonce := 2, code := [] })], [])
  ∧ (Worker.get_storage_at okRemote 3 4).2 = [RemoteCall.storageAt 3 4]
  ∧ (Worker.get_block_hash okRemote 6).2 = [RemoteCall.block 6] :=
  bridge_account_cache_and_uncached_storage okRemote [] 0
    { balance := 1000, nonce := 2, code := [] }
    [(0, { balance := 1000, nonce := 2, code := [] })]
    [RemoteCall.balance 0, RemoteCall.txCount 0, RemoteCall.codeAt 0] 3 4 6 rfl
